import Mathlib

/-!
Verification of the conversational-AI admin tool layer.

The Python source is shallowly embedded: the HTTP transport is abstracted
into outcome types (a request either produced a response with a status code
and a body, timed out, or raised), JSON parsing (`json.loads` /
`response.json()`) is a parameter `parse : String → Option Json` where
`none` models a parse exception, and each Python function that handles
those outcomes is translated into a total Lean function over the outcome
type.  All definitions are transcribed from the source files under `src/`.
-/

/-- A JSON value, the shape of the Python dict/list/scalar payloads
exchanged by the tool layer. -/
inductive Json where
  | null
  | bool (b : Bool)
  | num (n : Int)
  | str (s : String)
  | arr (elems : List Json)
  | obj (fields : List (String × Json))

/-- Escape for string serialization (backslash and double quote). -/
def jsonEscape (s : String) : String :=
  s.foldl
    (fun acc c =>
      if c = '\\' then acc ++ "\\\\"
      else if c = '\"' then acc ++ "\\\""
      else acc.push c)
    ""

mutual

/-- Model of Python `json.dumps` (modulo whitespace/indentation, which no
claim depends on). -/
def jsonDumps : Json → String
  | Json.null => "null"
  | Json.bool b => cond b "true" "false"
  | Json.num n => toString n
  | Json.str s => "\"" ++ jsonEscape s ++ "\""
  | Json.arr elems => "[" ++ jsonDumpsList elems ++ "]"
  | Json.obj fields => "\x7b" ++ jsonDumpsFields fields ++ "\x7d"

/-- Serialize the elements of a JSON array. -/
def jsonDumpsList : List Json → String
  | [] => ""
  | [x] => jsonDumps x
  | x :: xs => jsonDumps x ++ ", " ++ jsonDumpsList xs

/-- Serialize the key-value pairs of a JSON object. -/
def jsonDumpsFields : List (String × Json) → String
  | [] => ""
  | [kv] => "\"" ++ jsonEscape kv.1 ++ "\": " ++ jsonDumps kv.2
  | kv :: kvs => "\"" ++ jsonEscape kv.1 ++ "\": " ++ jsonDumps kv.2 ++ ", " ++ jsonDumpsFields kvs

end

/-- Python falsiness (`not x`) on a JSON value. -/
def pyNot : Json → Bool
  | Json.null => true
  | Json.bool b => !b
  | Json.num n => n == 0
  | Json.str s => s == ""
  | Json.arr elems => elems.isEmpty
  | Json.obj fields => fields.isEmpty

/-- Python `dict.get(key, default)` on an association list. -/
def dictGetD (kvs : List (String × Json)) (k : String) (d : Json) : Json :=
  match kvs.find? (fun kv => kv.1 == k) with
  | some kv => kv.2
  | none => d

/-- The normalized outcome of a backend invocation, as built by the three
gateway functions (`make_request` in `admin_mcp/tools/base.py`, `_request`
in `clairai_adminroutes.py`, `_backend_request` in
`clairai_toolcalling_mechanisms.py`).  Each field is an `Option` because
the Python dicts omit keys (or set them to `None`) depending on the branch:
`none` models an absent/`None` field. -/
structure ToolCallResult where
  success : Bool
  data : Option Json
  error : Option String
  status_code : Option Nat

/-- Outcome of one `httpx` request attempt inside `make_request`:
either a response arrived (status code and body text), or the request
timed out (`httpx.TimeoutException`), or some other exception was raised. -/
inductive HttpOutcome where
  | response (status : Nat) (body : String)
  | timeout (msg : String)
  | exc (msg : String)

/-- Embedding of `make_request` (src/admin_mcp/tools/base.py, lines 30-73).
`parse` models `response.json()` applied to the body text (`none` = the
parse raised).  `response.raise_for_status()` raises `HTTPStatusError`
exactly when the status is not 2xx; that exception is caught and turned
into the `HTTP <status>: <text>` failure.  `httpx.TimeoutException` is
caught first (408) and any other exception last (500). -/
def make_request (parse : String → Option Json) (o : HttpOutcome) : ToolCallResult :=
  match o with
  | HttpOutcome.response status body =>
      if 200 ≤ status ∧ status < 300 then
        let data :=
          match parse body with
          | some j => j
          | none => Json.obj [("raw_response", Json.str body)]
        { success := true, data := some data, error := none, status_code := some status }
      else
        { success := false, data := none,
          error := some ("HTTP " ++ toString status ++ ": " ++ body),
          status_code := some status }
  | HttpOutcome.timeout msg =>
      { success := false, data := none,
        error := some ("Request timeout: " ++ msg), status_code := some 408 }
  | HttpOutcome.exc msg =>
      { success := false, data := none, error := some msg, status_code := some 500 }

/-- Outcome of one synchronous request attempt for the gateways that do not
special-case timeouts (`_request` and `_backend_request`): a response with
status and body text, or an exception (timeouts included, since those
functions only have a generic `except Exception` handler). -/
inductive SyncOutcome where
  | response (status : Nat) (body : String)
  | exc (msg : String)

/-- Embedding of `_request` (src/clairai_adminroutes.py, lines 22-37).
Note the non-2xx branch returns `success=False` with `status` and `data`
but no `error` key at all; only the exception branch sets `error`. -/
def clairai_request (parse : String → Option Json) (o : SyncOutcome) : ToolCallResult :=
  match o with
  | SyncOutcome.response status body =>
      let data :=
        match parse body with
        | some j => j
        | none => Json.str body
      if 200 ≤ status ∧ status < 300 then
        { success := true, data := some data, error := none, status_code := some status }
      else
        { success := false, data := some data, error := none, status_code := some status }
  | SyncOutcome.exc msg =>
      { success := false, data := none, error := some msg, status_code := none }

/-- Embedding of `_backend_request`
(src/clairai_toolcalling_mechanisms.py, lines 156-170).  Success carries
`error=None` (absent), non-2xx carries `error="HTTP <status>"`, and an
exception carries the exception message with `status=None`. -/
def backend_request (parse : String → Option Json) (o : SyncOutcome) : ToolCallResult :=
  match o with
  | SyncOutcome.response status body =>
      let data :=
        match parse body with
        | some j => j
        | none => Json.str body
      if 200 ≤ status ∧ status < 300 then
        { success := true, data := some data, error := none, status_code := some status }
      else
        { success := false, data := some data,
          error := some ("HTTP " ++ toString status), status_code := some status }
  | SyncOutcome.exc msg =>
      { success := false, data := none, error := some msg, status_code := none }

/-- A concrete stand-in for `json.loads` used by closed witness statements:
parses the two literals the witnesses need and fails on everything else. -/
def parse0 : String → Option Json :=
  fun s => if s = "null" then some Json.null else none

/-- Shape of a tool's `inputSchema` in the `TOOLS` table
(src/admin_mcp/server.py, lines 71-234): the property names and the
`required` list.  The per-property sub-objects (type/description/enum
strings) are elided; no claim mentions them.  A schema with no `required`
key in the source is recorded with `required := []`. -/
structure InputSchema where
  properties : List String
  required : List String
deriving DecidableEq

/-- One entry of the `TOOLS` table: registered name, description, and
input schema.  The `function` value is modelled separately by
`toolFunctions` (the tool functions' Python signatures). -/
structure ToolEntry where
  name : String
  description : String
  inputSchema : InputSchema
deriving DecidableEq

/-- The `TOOLS` registry (src/admin_mcp/server.py, lines 71-234),
transcribed in table order. -/
def TOOLS : List ToolEntry := [
  { name := "onboard_logging_config",
    description := "Onboard a new logging configuration for a specific client and AWS account. Use when setting up or configuring logging.",
    inputSchema := {
      properties := ["client_id", "aws_account_id", "source", "log_selector"],
      required := ["client_id", "aws_account_id", "source", "log_selector"] } },
  { name := "get_logging_configs",
    description := "Retrieve all logging configurations for a specific client and AWS account. Use when asking about logging setup.",
    inputSchema := {
      properties := ["client_id", "aws_account_id"],
      required := ["client_id", "aws_account_id"] } },
  { name := "delete_logging_config",
    description := "Delete logging configurations and deboard a log group. Use when removing or disabling logging.",
    inputSchema := {
      properties := ["client_id", "aws_account_id", "source", "log_selector"],
      required := ["client_id", "aws_account_id", "source", "log_selector"] } },
  { name := "get_firing_alerts",
    description := "Fetch all currently firing alerts from Grafana dashboard. Use when asking about current or active alerts.",
    inputSchema := { properties := [], required := [] } },
  { name := "get_datasources",
    description := "Fetch all Grafana data sources (Prometheus, Loki, etc.) configured in the workspace. Use when asking about available data sources.",
    inputSchema := { properties := [], required := [] } },
  { name := "create_alert",
    description := "Create a new alert rule in Grafana using metrics, logs, or both. Use when setting up a new alert or monitoring rule.",
    inputSchema := {
      properties := ["title", "severity", "receiver", "description", "datasource",
                     "threshold_value", "for_duration", "lookback_seconds", "prom_expr", "log_expr"],
      required := ["title", "severity", "receiver", "description", "datasource", "threshold_value"] } },
  { name := "get_all_alerts",
    description := "Retrieve a list of all alert rules stored in the system. Use when listing all alerts.",
    inputSchema := { properties := [], required := [] } },
  { name := "update_alert",
    description := "Update an existing alert rule by its ID. Use when modifying an existing alert.",
    inputSchema := {
      properties := ["alert_id", "title", "severity", "receiver", "description", "datasource",
                     "threshold_value", "for_duration", "lookback_seconds", "prom_expr", "log_expr"],
      required := ["alert_id"] } },
  { name := "delete_alert",
    description := "Delete an alert rule by its UID. Use when removing an alert.",
    inputSchema := { properties := ["alert_uid"], required := ["alert_uid"] } },
  { name := "get_specific_alert",
    description := "Get details of a specific alert by its ID. Use when asking about a particular alert.",
    inputSchema := { properties := ["alert_id"], required := ["alert_id"] } },
  { name := "get_metrics_namespaces",
    description := "Get metrics namespaces for an AWS account. Use when asking about available metrics or namespaces.",
    inputSchema := {
      properties := ["account_id", "region", "timerange"],
      required := ["account_id", "region", "timerange"] } },
  { name := "get_metrics_metadata",
    description := "Get metrics metadata for a specific AWS service. Use when asking about metrics for a particular service.",
    inputSchema := {
      properties := ["account_id", "region", "timerange", "service"],
      required := ["account_id", "region", "timerange", "service"] } } ]

/-- The registered tool names, i.e. the keys of `TOOLS`. -/
def registeredNames : List String := TOOLS.map (fun e => e.name)

/-- One parameter of a Python tool function: its name and whether the
`def` gives it a default value. -/
structure PyParam where
  name : String
  hasDefault : Bool
deriving DecidableEq

/-- The signature of one Python tool function. -/
structure PyFunc where
  name : String
  params : List PyParam
deriving DecidableEq

/-- The signatures of the tool functions registered in `TOOLS`, transcribed
from src/admin_mcp/tools/logging_tools.py, alert_tools.py and
metrics_tools.py. -/
def toolFunctions : List PyFunc := [
  { name := "onboard_logging_config",
    params := [{ name := "client_id", hasDefault := false },
               { name := "aws_account_id", hasDefault := false },
               { name := "source", hasDefault := false },
               { name := "log_selector", hasDefault := false }] },
  { name := "get_logging_configs",
    params := [{ name := "client_id", hasDefault := false },
               { name := "aws_account_id", hasDefault := false }] },
  { name := "delete_logging_config",
    params := [{ name := "client_id", hasDefault := false },
               { name := "aws_account_id", hasDefault := false },
               { name := "source", hasDefault := false },
               { name := "log_selector", hasDefault := false }] },
  { name := "get_firing_alerts", params := [] },
  { name := "get_datasources", params := [] },
  { name := "create_alert",
    params := [{ name := "title", hasDefault := false },
               { name := "severity", hasDefault := false },
               { name := "receiver", hasDefault := false },
               { name := "description", hasDefault := false },
               { name := "datasource", hasDefault := false },
               { name := "threshold_value", hasDefault := false },
               { name := "for_duration", hasDefault := true },
               { name := "lookback_seconds", hasDefault := true },
               { name := "prom_expr", hasDefault := true },
               { name := "log_expr", hasDefault := true }] },
  { name := "get_all_alerts", params := [] },
  { name := "update_alert",
    params := [{ name := "alert_id", hasDefault := false },
               { name := "title", hasDefault := true },
               { name := "severity", hasDefault := true },
               { name := "receiver", hasDefault := true },
               { name := "description", hasDefault := true },
               { name := "datasource", hasDefault := true },
               { name := "threshold_value", hasDefault := true },
               { name := "for_duration", hasDefault := true },
               { name := "lookback_seconds", hasDefault := true },
               { name := "prom_expr", hasDefault := true },
               { name := "log_expr", hasDefault := true }] },
  { name := "delete_alert", params := [{ name := "alert_uid", hasDefault := false }] },
  { name := "get_specific_alert", params := [{ name := "alert_id", hasDefault := false }] },
  { name := "get_metrics_namespaces",
    params := [{ name := "account_id", hasDefault := false },
               { name := "region", hasDefault := false },
               { name := "timerange", hasDefault := false }] },
  { name := "get_metrics_metadata",
    params := [{ name := "account_id", hasDefault := false },
               { name := "region", hasDefault := false },
               { name := "timerange", hasDefault := false },
               { name := "service", hasDefault := false }] } ]

/-- The mandatory (no-default) argument names of the tool function with the
given name. -/
def mandatoryOf (n : String) : List String :=
  match toolFunctions.find? (fun f => f.name == n) with
  | some f => (f.params.filter (fun p => !p.hasDefault)).map (fun p => p.name)
  | none => []

/-- Embedding of `handle_list_tools` (src/admin_mcp/server.py, lines
285-294): one descriptor per `TOOLS` entry, carrying name, description and
inputSchema. -/
def handle_list_tools : List ToolEntry :=
  TOOLS.map (fun e =>
    { name := e.name, description := e.description, inputSchema := e.inputSchema })

/-- JSON encoding of a tool descriptor as placed in the `tools/list`
result (property sub-objects elided, as in `InputSchema`). -/
def toolEntryToJson (e : ToolEntry) : Json :=
  Json.obj [
    ("name", Json.str e.name),
    ("description", Json.str e.description),
    ("inputSchema", Json.obj [
      ("type", Json.str "object"),
      ("properties", Json.arr (e.inputSchema.properties.map Json.str)),
      ("required", Json.arr (e.inputSchema.required.map Json.str))])]

/-- One content block of a tool-result envelope
(`{"type": "text", "text": ...}`). -/
structure ContentBlock where
  type : String
  text : String

/-- The tool-result envelope built by `handle_call_tool`: a content list
and the `isError` flag. -/
structure Envelope where
  content : List ContentBlock
  isError : Bool

/-- JSON encoding of a content block. -/
def contentBlockToJson (b : ContentBlock) : Json :=
  Json.obj [("type", Json.str b.type), ("text", Json.str b.text)]

/-- JSON encoding of a tool-result envelope. -/
def envelopeToJson (e : Envelope) : Json :=
  Json.obj [
    ("content", Json.arr (e.content.map contentBlockToJson)),
    ("isError", Json.bool e.isError)]

/-- Outcome of invoking a registered tool function (`await
tool_func(**arguments)`): either it returned a dict normally, or it raised
an exception with the given message.  The dict case carries the returned
key-value pairs (every tool function returns the `make_request` dict). -/
inductive InvokeOutcome where
  | ok (result : List (String × Json))
  | raise (msg : String)

/-- Embedding of `handle_call_tool` (src/admin_mcp/server.py, lines
297-331).  `inv` gives the invocation outcome per tool name (it absorbs
the arguments and the backend, which the claims quantify over).
`Except.error` models the `ValueError` raised for an unregistered (or
missing) `params.name`; Python renders a missing name as `None`, so the
message there is "Unknown tool: None".  Both invocation outcomes of a
registered tool produce an envelope: a normal result is serialized into
one text block with `isError = not result.get("success", True)`, and an
exception is caught and wrapped as `{"error": msg}` with `isError=true`. -/
def handle_call_tool (inv : String → InvokeOutcome) (toolName : Option String) :
    Except String Envelope :=
  match toolName with
  | none => Except.error "Unknown tool: None"
  | some n =>
    if registeredNames.contains n then
      match inv n with
      | InvokeOutcome.ok r =>
          Except.ok
            { content := [{ type := "text", text := jsonDumps (Json.obj r) }],
              isError := pyNot (dictGetD r "success" (Json.bool true)) }
      | InvokeOutcome.raise msg =>
          Except.ok
            { content := [{ type := "text",
                            text := jsonDumps (Json.obj [("error", Json.str msg)]) }],
              isError := true }
    else Except.error ("Unknown tool: " ++ n)

/-- An inbound JSON-RPC request as read by `process_mcp_request`:
`req.get("id")` (a JSON scalar or absent/None, both modelled as `none`),
`req.get("method", "")`, and `params.get("name")` for `tools/call`.
The `arguments` value is absorbed into the invocation environment `inv`. -/
structure RpcRequest where
  id : Option Json
  method : String
  paramsName : Option String

/-- A JSON-RPC error object (`{code, message}`). -/
structure RpcError where
  code : Int
  message : String

/-- A JSON-RPC response dict as built by `process_mcp_request`: the echoed
id and exactly one of `result` or `error`. -/
structure RpcResponse where
  id : Option Json
  result : Option Json
  error : Option RpcError

/-- The fixed result dict of `handle_initialize`
(src/admin_mcp/server.py, lines 270-282). -/
def handleInitResult : Json :=
  Json.obj [
    ("protocolVersion", Json.str "2026-02-02"),
    ("capabilities", Json.obj [
      ("tools", Json.obj [("listChanged", Json.bool true)]),
      ("resources", Json.obj [("subscribe", Json.bool false), ("listChanged", Json.bool false)]),
      ("prompts", Json.obj [("listChanged", Json.bool false)])]),
    ("serverInfo", Json.obj [
      ("name", Json.str "clairai-admin-mcp"),
      ("version", Json.str "1.0.0")])]

/-- Embedding of `process_mcp_request` (src/admin_mcp/server.py, lines
503-550), mirroring the Python `elif` chain.  `initialized` is a
notification and produces `none`; the `ValueError` raised by
`handle_call_tool` is caught and mapped to error code -32602; an
unrecognized method maps to -32601.  Every handler in the model is total,
so the generic `except Exception` -> -32603 arm has no reachable case. -/
def process_mcp_request (inv : String → InvokeOutcome) (req : RpcRequest) :
    Option RpcResponse :=
  if req.method = "initialize" then
    some { id := req.id, result := some handleInitResult, error := none }
  else if req.method = "initialized" then
    none
  else if req.method = "tools/list" then
    some { id := req.id,
           result := some (Json.obj [("tools", Json.arr (handle_list_tools.map toolEntryToJson))]),
           error := none }
  else if req.method = "tools/call" then
    match handle_call_tool inv req.paramsName with
    | Except.ok env =>
        some { id := req.id, result := some (envelopeToJson env), error := none }
    | Except.error msg =>
        some { id := req.id, result := none,
               error := some { code := -32602, message := msg } }
  else if req.method = "resources/list" then
    some { id := req.id, result := some (Json.obj [("resources", Json.arr [])]), error := none }
  else if req.method = "prompts/list" then
    some { id := req.id, result := some (Json.obj [("prompts", Json.arr [])]), error := none }
  else if req.method = "ping" then
    some { id := req.id, result := some (Json.obj [("pong", Json.bool true)]), error := none }
  else
    some { id := req.id, result := none,
           error := some { code := -32601, message := "Method not found: " ++ req.method } }

/-- The batch loop of `mcp_endpoint` (src/admin_mcp/server.py, lines
396-402): process each request in order and append the response when it is
not `None`. -/
def processBatch (inv : String → InvokeOutcome) : List RpcRequest → List RpcResponse
  | [] => []
  | r :: rest =>
    match process_mcp_request inv r with
    | some resp => resp :: processBatch inv rest
    | none => processBatch inv rest

/-- An inbound body of the `/mcp` endpoint: a single request or an array. -/
inductive McpBody where
  | single (r : RpcRequest)
  | batch (rs : List RpcRequest)

/-- The HTTP reply of the `/mcp` endpoint (JSON parse/exception arms
elided; no claim concerns them). -/
inductive HttpReply where
  | jsonArr (resps : List RpcResponse)
  | jsonOne (resp : RpcResponse)
  | noContent

/-- Embedding of `mcp_endpoint` (src/admin_mcp/server.py, lines 388-407):
an array body yields the array of non-`None` responses in order; a single
body yields the response, or HTTP 204 with no body when the request was a
notification. -/
def mcp_endpoint (inv : String → InvokeOutcome) : McpBody → HttpReply
  | McpBody.batch rs => HttpReply.jsonArr (processBatch inv rs)
  | McpBody.single r =>
    match process_mcp_request inv r with
    | some resp => HttpReply.jsonOne resp
    | none => HttpReply.noContent

/-- Render `body.get("id")` for embedding into SSE event data
(`json.dumps` turns Python `None` into `null`). -/
def idToJson : Option Json → Json
  | some j => j
  | none => Json.null

/-- JSON encoding of an RPC error object. -/
def rpcErrorToJson (e : RpcError) : Json :=
  Json.obj [("code", Json.num e.code), ("message", Json.str e.message)]

/-- JSON encoding of a response dict, with the key order used by the
source (`jsonrpc`, `id`, then `result` or `error`). -/
def rpcResponseToJson (r : RpcResponse) : Json :=
  Json.obj ([("jsonrpc", Json.str "2.0"), ("id", idToJson r.id)] ++
    (match r.result with | some j => [("result", j)] | none => []) ++
    (match r.error with | some e => [("error", rpcErrorToJson e)] | none => []))

/-- One server-sent event: event name and data line. -/
structure SseEvent where
  event : String
  data : String

/-- Reply of the per-request SSE endpoint: 404 for an unknown session, or
the ordered event stream. -/
inductive SseReply where
  | notFound
  | events (evs : List SseEvent)

/-- Embedding of `mcp_sse_request` (src/admin_mcp/server.py, lines
466-500).  The session store is modelled as the list of live session ids
(`SessionManager.sessions` keys; a stored session dict is never empty, so
`if not session` is exactly the missing-key test).  A known session yields
the three events in generator order: progress (with the request id), the
dispatcher's response serialized as the result event (the literal string
"\x7b\x7d" when the dispatcher returned `None`), then done. -/
def mcp_sse_request (inv : String → InvokeOutcome) (store : List String)
    (session_id : String) (req : RpcRequest) : SseReply :=
  if store.contains session_id then
    SseReply.events [
      { event := "progress",
        data := jsonDumps (Json.obj [
          ("status", Json.str "processing"), ("request_id", idToJson req.id)]) },
      { event := "result",
        data := match process_mcp_request inv req with
          | some resp => jsonDumps (rpcResponseToJson resp)
          | none => "\x7b\x7d" },
      { event := "done",
        data := jsonDumps (Json.obj [("request_id", idToJson req.id)]) } ]
  else SseReply.notFound

/-- The result dict of `call_mcp_tool`
(src/clairai_toolcalling_mechanisms.py): `{success, status, data, error}`;
`none` models an absent/`None` value. -/
structure ClientResult where
  success : Bool
  status : Option Nat
  data : Option Json
  error : Option String

/-- What reading the SSE body produced: the raw lines of
`resp.iter_lines`, or an exception while iterating. -/
inductive StreamRead where
  | lines (ls : List String)
  | readError (msg : String)

/-- Outcome of the streaming `requests.post` attempt: the call raised, or
returned a response with a status code and a readable body. -/
inductive StreamEnv where
  | raised (msg : String)
  | ok (status : Nat) (read : StreamRead)

/-- Outcome of the plain (fallback) `requests.post`: raised, or a response
with status code and body text. -/
inductive PostOutcome where
  | raised (msg : String)
  | response (status : Nat) (body : String)

/-- The HTTP requests `call_mcp_tool` issues, in order. -/
inductive HttpAction where
  | streamPost
  | plainPost
deriving DecidableEq

/-- Python `str.strip()` whitespace (the ASCII whitespace characters). -/
def isPySpace (c : Char) : Bool :=
  c == ' ' || c == '\t' || c == '\n' || c == '\r' || c == '\x0b' || c == '\x0c'

/-- Drop leading Python whitespace from a character list. -/
def dropPySpace : List Char → List Char
  | [] => []
  | c :: cs => if isPySpace c then dropPySpace cs else c :: cs

/-- Python `str.strip()`: remove leading and trailing whitespace. -/
def pyStrip (s : String) : String :=
  ⟨(dropPySpace (dropPySpace s.data).reverse).reverse⟩

/-- Prefix test on character lists (Python `str.startswith`). -/
def listStarts : List Char → List Char → Bool
  | [], _ => true
  | _ :: _, [] => false
  | p :: ps, c :: cs => p == c && listStarts ps cs

/-- Python `str.startswith(pre)`. -/
def pyStartsWith (s pre : String) : Bool :=
  listStarts pre.data s.data

/-- Python slicing `s[n:]` (by code point). -/
def pyDrop (n : Nat) (s : String) : String :=
  ⟨s.data.drop n⟩

/-- Result of the SSE line loop in `call_mcp_tool` (lines 53-69): an early
return with the first `data:` payload that parses as JSON, or loop
completion with the collected payloads (in arrival order). -/
inductive LoopOut where
  | found (parsed : Json)
  | done (chunks : List String)

/-- The `for raw in resp.iter_lines()` loop of `call_mcp_tool`: skip empty
lines, strip, keep `data:` lines, return as soon as a payload parses. -/
def sseLoop (parse : String → Option Json) : List String → List String → LoopOut
  | acc, [] => LoopOut.done acc.reverse
  | acc, raw :: rest =>
    if raw = "" then sseLoop parse acc rest
    else if pyStartsWith (pyStrip raw) "data:" then
      let payload := pyStrip (pyDrop 5 (pyStrip raw))
      match parse payload with
      | some j => LoopOut.found j
      | none => sseLoop parse (payload :: acc) rest
    else sseLoop parse acc rest

/-- The body of the `status == 200` branch of `call_mcp_tool` (lines
52-82): `none` means the stream parsing raised and control falls through
to the fallback POST; `some` is an early return. -/
def streamBranch (parse : String → Option Json) (status : Nat) (read : StreamRead) :
    Option ClientResult :=
  match read with
  | StreamRead.readError _ => none
  | StreamRead.lines ls =>
    match sseLoop parse [] ls with
    | LoopOut.found j =>
        some { success := true, status := some status, data := some j, error := none }
    | LoopOut.done [] =>
        some { success := false, status := some status, data := none,
               error := some "Empty SSE stream" }
    | LoopOut.done chunks =>
        let joined := String.intercalate "\n" chunks
        match parse joined with
        | some j => some { success := true, status := some status, data := some j, error := none }
        | none => some { success := true, status := some status,
                         data := some (Json.str joined), error := none }

/-- The fallback plain POST of `call_mcp_tool` (lines 87-101): 2xx is a
success with the parsed body (or the raw text), non-2xx is a failure with
`error = "HTTP <status>"`, an exception is a failure with the exception
message and `status=None`. -/
def fallback_post (parse : String → Option Json) (o : PostOutcome) : ClientResult :=
  match o with
  | PostOutcome.raised msg =>
      { success := false, status := none, data := none, error := some msg }
  | PostOutcome.response status body =>
      let data :=
        match parse body with
        | some j => j
        | none => Json.str body
      if 200 ≤ status ∧ status < 300 then
        { success := true, status := some status, data := some data, error := none }
      else
        { success := false, status := some status, data := some data,
          error := some ("HTTP " ++ toString status) }

/-- Embedding of `call_mcp_tool`
(src/clairai_toolcalling_mechanisms.py, lines 26-101).  Returns the result
dict together with the trace of HTTP requests issued.  The streaming
attempt is skipped when `try_stream` is false; it falls through to the
fallback POST when the streaming POST raised, the status was not exactly
200, or iterating the stream raised.  All early returns inside the 200
branch (parsed line, joined chunks, or the empty-stream failure) return
without a fallback.  The same JSON-RPC payload and endpoint are used for
both the streaming and the fallback request, so the trace records at most
one of each. -/
def call_mcp_tool (parse : String → Option Json) (try_stream : Bool)
    (se : StreamEnv) (po : PostOutcome) : ClientResult × List HttpAction :=
  if try_stream then
    match se with
    | StreamEnv.raised _ => (fallback_post parse po, [HttpAction.streamPost, HttpAction.plainPost])
    | StreamEnv.ok status read =>
      if status = 200 then
        match streamBranch parse status read with
        | some r => (r, [HttpAction.streamPost])
        | none => (fallback_post parse po, [HttpAction.streamPost, HttpAction.plainPost])
      else (fallback_post parse po, [HttpAction.streamPost, HttpAction.plainPost])
  else (fallback_post parse po, [HttpAction.plainPost])

/-- C1: `make_request` never raises: every outcome is mapped to a
`ToolCallResult` where (1) a 2xx response gives `success=true`, the parsed
body (or the raw text wrapped under `raw_response` when parsing fails) and
the real status code; (2) a timeout gives `success=false` with
`status_code=408`; (3) a non-2xx response gives `success=false`, an error
embedding the status code and body, and the real status; (4) any other
exception gives `success=false` with the exception message and
`status_code=500`. -/
theorem make_request_never_raises (parse : String → Option Json) (o : HttpOutcome) :
    (∀ status body, o = HttpOutcome.response status body → 200 ≤ status → status < 300 →
      make_request parse o =
        { success := true,
          data := some (match parse body with
                        | some j => j
                        | none => Json.obj [("raw_response", Json.str body)]),
          error := none, status_code := some status }) ∧
    (∀ status body, o = HttpOutcome.response status body → ¬(200 ≤ status ∧ status < 300) →
      make_request parse o =
        { success := false, data := none,
          error := some ("HTTP " ++ toString status ++ ": " ++ body),
          status_code := some status }) ∧
    (∀ msg, o = HttpOutcome.timeout msg →
      make_request parse o =
        { success := false, data := none,
          error := some ("Request timeout: " ++ msg), status_code := some 408 }) ∧
    (∀ msg, o = HttpOutcome.exc msg →
      make_request parse o =
        { success := false, data := none, error := some msg, status_code := some 500 }) := by
  refine ⟨?_, ?_, ?_, ?_⟩
  · intro status body ho h1 h2
    subst ho
    simp [make_request, h1, h2]
  · intro status body ho h
    subst ho
    simp [make_request, h]
  · intro msg ho
    subst ho
    rfl
  · intro msg ho
    subst ho
    rfl

/-- Closed instance of C1: a 404 response and a timeout, evaluated
concretely. -/
theorem make_request_never_raises_witness :
    make_request parse0 (HttpOutcome.response 404 "nf") =
      { success := false, data := none,
        error := some "HTTP 404: nf", status_code := some 404 } ∧
    make_request parse0 (HttpOutcome.timeout "t") =
      { success := false, data := none,
        error := some "Request timeout: t", status_code := some 408 } :=
  ⟨(make_request_never_raises parse0 (HttpOutcome.response 404 "nf")).2.1 404 "nf" rfl
      (by decide),
   (make_request_never_raises parse0 (HttpOutcome.timeout "t")).2.2.1 "t" rfl⟩

/-- C2 counterexample: `_request` (clairai_adminroutes.py) on an HTTP 404
returns `success=False` with no `error` field, so "success iff error
absent" fails for this gateway. -/
theorem success_iff_no_error_counterexample :
    ¬(((clairai_request parse0 (SyncOutcome.response 404 "nf")).success = true) ↔
      ((clairai_request parse0 (SyncOutcome.response 404 "nf")).error = none)) := by
  intro h
  have h2 : (clairai_request parse0 (SyncOutcome.response 404 "nf")).success = true :=
    h.mpr rfl
  simp [clairai_request, parse0] at h2

/-- C2 amended: `make_request` and `_backend_request` satisfy
"success iff error absent" on every outcome; `_request` satisfies only the
two one-sided halves (success implies no error; an error implies failure),
because its HTTP non-2xx branch returns a failure with no error field. -/
theorem success_iff_no_error_amended (parse : String → Option Json)
    (o : HttpOutcome) (o2 : SyncOutcome) :
    (((make_request parse o).success = true) ↔ ((make_request parse o).error = none)) ∧
    (((backend_request parse o2).success = true) ↔ ((backend_request parse o2).error = none)) ∧
    ((clairai_request parse o2).success = true → (clairai_request parse o2).error = none) ∧
    (∀ msg, (clairai_request parse o2).error = some msg →
      (clairai_request parse o2).success = false) := by
  refine ⟨?_, ?_, ?_, ?_⟩
  · cases o with
    | response status body =>
        by_cases h : 200 ≤ status ∧ status < 300 <;> simp [make_request, h]
    | timeout msg => simp [make_request]
    | exc msg => simp [make_request]
  · cases o2 with
    | response status body =>
        by_cases h : 200 ≤ status ∧ status < 300 <;> simp [backend_request, h]
    | exc msg => simp [backend_request]
  · cases o2 with
    | response status body =>
        by_cases h : 200 ≤ status ∧ status < 300 <;> simp [clairai_request, h]
    | exc msg => simp [clairai_request]
  · cases o2 with
    | response status body =>
        by_cases h : 200 ≤ status ∧ status < 300 <;> simp [clairai_request, h]
    | exc msg => simp [clairai_request]

/-- Closed instance of the amended C2: a success and an exception outcome,
evaluated concretely. -/
theorem success_iff_no_error_amended_witness :
    ((make_request parse0 (HttpOutcome.response 200 "null")).success = true) ∧
    ((make_request parse0 (HttpOutcome.response 200 "null")).error = none) ∧
    ((clairai_request parse0 (SyncOutcome.exc "boom")).success = false) :=
  ⟨(success_iff_no_error_amended parse0 (HttpOutcome.response 200 "null")
      (SyncOutcome.exc "boom")).1.mpr rfl,
   (success_iff_no_error_amended parse0 (HttpOutcome.response 200 "null")
      (SyncOutcome.exc "boom")).1.mp rfl,
   (success_iff_no_error_amended parse0 (HttpOutcome.response 200 "null")
      (SyncOutcome.exc "boom")).2.2.2 "boom" rfl⟩

/-- Helper: a request with method "initialized" is a notification and
produces no response. -/
theorem process_none_of_notification (inv : String → InvokeOutcome) (req : RpcRequest)
    (h : req.method = "initialized") : process_mcp_request inv req = none := by
  simp [process_mcp_request, h]

/-- Helper: every non-notification request produces a response. -/
theorem process_isSome_of_not_notification (inv : String → InvokeOutcome) (req : RpcRequest)
    (h : ¬ req.method = "initialized") : (process_mcp_request inv req).isSome = true := by
  rw [process_mcp_request]
  by_cases h1 : req.method = "initialize"
  · simp [h1]
  · rw [if_neg h1, if_neg h]
    by_cases h3 : req.method = "tools/list"
    · simp [h3]
    · rw [if_neg h3]
      by_cases h4 : req.method = "tools/call"
      · rw [if_pos h4]
        cases handle_call_tool inv req.paramsName <;> simp
      · rw [if_neg h4]
        by_cases h5 : req.method = "resources/list"
        · simp [h5]
        · rw [if_neg h5]
          by_cases h6 : req.method = "prompts/list"
          · simp [h6]
          · rw [if_neg h6]
            by_cases h7 : req.method = "ping"
            · simp [h7]
            · rw [if_neg h7]
              simp

/-- C3: for a `tools/call` dispatch of a registered tool, an exception
raised while invoking the tool is caught and converted into an
`isError=true` envelope carrying the exception message, and the dispatch
still produces a JSON-RPC result (never a protocol-level error); a normal
return is wrapped into one text block holding the serialized result, with
`isError` equal to the negation of the result's `success` field. -/
theorem tool_call_envelope_spec (inv : String → InvokeOutcome) (req : RpcRequest)
    (n : String) (hm : req.method = "tools/call") (hn : req.paramsName = some n)
    (hreg : n ∈ registeredNames) :
    (∀ msg, inv n = InvokeOutcome.raise msg →
      process_mcp_request inv req =
        some { id := req.id,
               result := some (envelopeToJson
                 { content := [{ type := "text",
                                 text := jsonDumps (Json.obj [("error", Json.str msg)]) }],
                   isError := true }),
               error := none }) ∧
    (∀ r, inv n = InvokeOutcome.ok r →
      process_mcp_request inv req =
        some { id := req.id,
               result := some (envelopeToJson
                 { content := [{ type := "text", text := jsonDumps (Json.obj r) }],
                   isError := pyNot (dictGetD r "success" (Json.bool true)) }),
               error := none }) ∧
    (∀ r b, inv n = InvokeOutcome.ok r →
      dictGetD r "success" (Json.bool true) = Json.bool b →
      ∀ env, handle_call_tool inv (some n) = Except.ok env → env.isError = !b) := by
  refine ⟨?_, ?_, ?_⟩
  · intro msg hi
    simp [process_mcp_request, hm, handle_call_tool, hn, hreg, hi]
  · intro r hi
    simp [process_mcp_request, hm, handle_call_tool, hn, hreg, hi]
  · intro r b hi hs env henv
    simp only [handle_call_tool, hi] at henv
    rw [if_pos (by simpa using hreg)] at henv
    injection henv with henv
    subst henv
    simp [hs, pyNot]

/-- Closed instance of C3: a raising invocation and a `success=false`
result of the registered tool `get_firing_alerts`, evaluated concretely. -/
theorem tool_call_envelope_spec_witness :
    process_mcp_request (fun _ => InvokeOutcome.raise "boom")
        { id := some (Json.num 1), method := "tools/call",
          paramsName := some "get_firing_alerts" } =
      some { id := some (Json.num 1),
             result := some (envelopeToJson
               { content := [{ type := "text",
                               text := jsonDumps (Json.obj [("error", Json.str "boom")]) }],
                 isError := true }),
             error := none } ∧
    ∀ env,
      handle_call_tool (fun _ => InvokeOutcome.ok [("success", Json.bool false)])
          (some "get_firing_alerts") = Except.ok env →
      env.isError = !false :=
  ⟨(tool_call_envelope_spec (fun _ => InvokeOutcome.raise "boom")
      { id := some (Json.num 1), method := "tools/call",
        paramsName := some "get_firing_alerts" }
      "get_firing_alerts" rfl rfl (by decide)).1 "boom" rfl,
   fun env henv =>
    (tool_call_envelope_spec (fun _ => InvokeOutcome.ok [("success", Json.bool false)])
      { id := some (Json.num 1), method := "tools/call",
        paramsName := some "get_firing_alerts" }
      "get_firing_alerts" rfl rfl (by decide)).2.2
      [("success", Json.bool false)] false rfl rfl env henv⟩

/-- C4: a `tools/call` request whose `params.name` is not a registered
tool name yields a JSON-RPC error response with code -32602 echoing the
request id, not a tool-result envelope. -/
theorem unknown_tool_invalid_params (inv : String → InvokeOutcome) (req : RpcRequest)
    (n : String) (hm : req.method = "tools/call") (hn : req.paramsName = some n)
    (hreg : n ∉ registeredNames) :
    process_mcp_request inv req =
      some { id := req.id, result := none,
             error := some { code := -32602, message := "Unknown tool: " ++ n } } := by
  simp [process_mcp_request, hm, handle_call_tool, hn, hreg]

/-- Closed instance of C4: calling the unregistered name "nope". -/
theorem unknown_tool_invalid_params_witness :
    process_mcp_request (fun _ => InvokeOutcome.raise "unused")
        { id := some (Json.num 7), method := "tools/call", paramsName := some "nope" } =
      some { id := some (Json.num 7), result := none,
             error := some { code := -32602, message := "Unknown tool: nope" } } :=
  unknown_tool_invalid_params (fun _ => InvokeOutcome.raise "unused")
    { id := some (Json.num 7), method := "tools/call", paramsName := some "nope" }
    "nope" rfl rfl (by decide)

/-- C5: a batch is processed independently in array order and the response
array contains, in that order, exactly the responses of the
non-notification requests ("initialized" requests produce no element);
a single inbound notification gets HTTP 204 with no body. -/
theorem batch_responses_in_order (inv : String → InvokeOutcome)
    (reqs : List RpcRequest) (r : RpcRequest) (hr : r.method = "initialized") :
    processBatch inv reqs =
      (reqs.filter (fun q => q.method != "initialized")).filterMap
        (fun q => process_mcp_request inv q) ∧
    (∀ q ∈ reqs, ¬ q.method = "initialized" → (process_mcp_request inv q).isSome = true) ∧
    mcp_endpoint inv (McpBody.single r) = HttpReply.noContent := by
  refine ⟨?_, fun q _ hq => process_isSome_of_not_notification inv q hq, ?_⟩
  · induction reqs with
    | nil => rfl
    | cons q rest ih =>
      by_cases hq : q.method = "initialized"
      · simp [processBatch, process_none_of_notification inv q hq, List.filter_cons, hq, ih]
      · have hq' : (q.method != "initialized") = true := by
          simp [bne_iff_ne, hq]
        cases hp : process_mcp_request inv q with
        | none =>
          have := process_isSome_of_not_notification inv q hq
          rw [hp] at this
          simp at this
        | some resp =>
          simp [processBatch, hp, List.filter_cons, hq', List.filterMap_cons, ih]
  · simp [mcp_endpoint, process_none_of_notification inv r hr]

/-- Closed instance of C5: a three-element batch whose middle request is
an "initialized" notification yields two responses in order, and a single
notification body yields 204. -/
theorem batch_responses_in_order_witness :
    processBatch (fun _ => InvokeOutcome.raise "unused")
        [{ id := some (Json.num 1), method := "ping", paramsName := none },
         { id := none, method := "initialized", paramsName := none },
         { id := some (Json.num 2), method := "prompts/list", paramsName := none }] =
      [{ id := some (Json.num 1), result := some (Json.obj [("pong", Json.bool true)]),
         error := none },
       { id := some (Json.num 2), result := some (Json.obj [("prompts", Json.arr [])]),
         error := none }] ∧
    mcp_endpoint (fun _ => InvokeOutcome.raise "unused")
        (McpBody.single { id := none, method := "initialized", paramsName := none }) =
      HttpReply.noContent :=
  ⟨by rw [(batch_responses_in_order (fun _ => InvokeOutcome.raise "unused")
      [{ id := some (Json.num 1), method := "ping", paramsName := none },
       { id := none, method := "initialized", paramsName := none },
       { id := some (Json.num 2), method := "prompts/list", paramsName := none }]
      { id := none, method := "initialized", paramsName := none } rfl).1]
      rfl,
   (batch_responses_in_order (fun _ => InvokeOutcome.raise "unused") []
      { id := none, method := "initialized", paramsName := none } rfl).2.2⟩

/-- C7: on a per-request streaming channel, a known session yields exactly
the ordered events progress (with the request id), result (the
dispatcher's full serialized RpcResponse, produced between the two), and
done (with the request id); an unknown session id is refused with a 404
not-found failure rather than an empty stream. -/
theorem sse_request_event_order (inv : String → InvokeOutcome) (store : List String)
    (session_id : String) (req : RpcRequest) :
    (session_id ∈ store →
      mcp_sse_request inv store session_id req = SseReply.events [
        { event := "progress",
          data := jsonDumps (Json.obj [
            ("status", Json.str "processing"), ("request_id", idToJson req.id)]) },
        { event := "result",
          data := match process_mcp_request inv req with
            | some resp => jsonDumps (rpcResponseToJson resp)
            | none => "\x7b\x7d" },
        { event := "done",
          data := jsonDumps (Json.obj [("request_id", idToJson req.id)]) } ]) ∧
    (session_id ∉ store →
      mcp_sse_request inv store session_id req = SseReply.notFound) := by
  constructor
  · intro h
    simp [mcp_sse_request, h]
  · intro h
    simp [mcp_sse_request, h]

/-- Closed instance of C7: a ping request against a known session id, and
the same request against an unknown session id. -/
theorem sse_request_event_order_witness :
    mcp_sse_request (fun _ => InvokeOutcome.raise "unused") ["sess1"] "sess1"
        { id := some (Json.num 3), method := "ping", paramsName := none } =
      SseReply.events [
        { event := "progress",
          data := jsonDumps (Json.obj [
            ("status", Json.str "processing"), ("request_id", Json.num 3)]) },
        { event := "result",
          data := jsonDumps (rpcResponseToJson
            { id := some (Json.num 3),
              result := some (Json.obj [("pong", Json.bool true)]), error := none }) },
        { event := "done",
          data := jsonDumps (Json.obj [("request_id", Json.num 3)]) } ] ∧
    mcp_sse_request (fun _ => InvokeOutcome.raise "unused") ["sess1"] "other"
        { id := some (Json.num 3), method := "ping", paramsName := none } =
      SseReply.notFound :=
  ⟨(sse_request_event_order (fun _ => InvokeOutcome.raise "unused") ["sess1"] "sess1"
      { id := some (Json.num 3), method := "ping", paramsName := none }).1 (by decide),
   (sse_request_event_order (fun _ => InvokeOutcome.raise "unused") ["sess1"] "other"
      { id := some (Json.num 3), method := "ping", paramsName := none }).2 (by decide)⟩

/-- C8: for every registered tool name, `tools/list` carries exactly one
descriptor with that name, and its required-parameter set equals the set
of mandatory (no-default) arguments of the tool's underlying function. -/
theorem tools_list_required_matches (n : String) (h : n ∈ registeredNames) :
    ∃ req,
      (handle_list_tools.filter (fun d => d.name == n)).map
        (fun d => d.inputSchema.required) = [req] ∧
      ∀ p, p ∈ req ↔ p ∈ mandatoryOf n := by
  simp only [registeredNames, TOOLS, List.map_cons, List.map_nil, List.mem_cons,
    List.not_mem_nil, or_false] at h
  rcases h with h|h|h|h|h|h|h|h|h|h|h|h <;> subst h <;>
    exact ⟨_, rfl, fun p => Iff.rfl⟩

/-- Closed instance of C8: the `create_alert` descriptor is unique and its
required set matches the function's six mandatory arguments. -/
theorem tools_list_required_matches_witness :
    ∃ req,
      (handle_list_tools.filter (fun d => d.name == "create_alert")).map
        (fun d => d.inputSchema.required) = [req] ∧
      ∀ p, p ∈ req ↔ p ∈ mandatoryOf "create_alert" :=
  tools_list_required_matches "create_alert" (by decide)

/-- C10: the methods "ping", "resources/list" and "prompts/list" are
handled with a success result (`{"pong": true}`, `{"resources": []}`,
`{"prompts": []}`) echoing the request id, not a -32601 error. -/
theorem extra_methods_no_method_not_found (inv : String → InvokeOutcome)
    (req : RpcRequest) :
    (req.method = "ping" → process_mcp_request inv req =
      some { id := req.id, result := some (Json.obj [("pong", Json.bool true)]),
             error := none }) ∧
    (req.method = "resources/list" → process_mcp_request inv req =
      some { id := req.id, result := some (Json.obj [("resources", Json.arr [])]),
             error := none }) ∧
    (req.method = "prompts/list" → process_mcp_request inv req =
      some { id := req.id, result := some (Json.obj [("prompts", Json.arr [])]),
             error := none }) := by
  refine ⟨fun h => ?_, fun h => ?_, fun h => ?_⟩ <;> simp [process_mcp_request, h]

/-- Closed instance of C10: the three methods evaluated concretely. -/
theorem extra_methods_no_method_not_found_witness :
    process_mcp_request (fun _ => InvokeOutcome.raise "unused")
        { id := some (Json.num 5), method := "ping", paramsName := none } =
      some { id := some (Json.num 5), result := some (Json.obj [("pong", Json.bool true)]),
             error := none } ∧
    process_mcp_request (fun _ => InvokeOutcome.raise "unused")
        { id := some (Json.num 6), method := "resources/list", paramsName := none } =
      some { id := some (Json.num 6), result := some (Json.obj [("resources", Json.arr [])]),
             error := none } ∧
    process_mcp_request (fun _ => InvokeOutcome.raise "unused")
        { id := some (Json.num 7), method := "prompts/list", paramsName := none } =
      some { id := some (Json.num 7), result := some (Json.obj [("prompts", Json.arr [])]),
             error := none } :=
  ⟨(extra_methods_no_method_not_found (fun _ => InvokeOutcome.raise "unused")
      { id := some (Json.num 5), method := "ping", paramsName := none }).1 rfl,
   (extra_methods_no_method_not_found (fun _ => InvokeOutcome.raise "unused")
      { id := some (Json.num 6), method := "resources/list", paramsName := none }).2.1 rfl,
   (extra_methods_no_method_not_found (fun _ => InvokeOutcome.raise "unused")
      { id := some (Json.num 7), method := "prompts/list", paramsName := none }).2.2 rfl⟩

/-- C6 counterexample: a streaming response with HTTP 200 and no data
lines (an empty stream) makes `call_mcp_tool` return the
"Empty SSE stream" failure directly — only the streaming POST is issued,
no fallback POST happens, and the returned result is not the fallback's
(which here would be a success). -/
theorem stream_fallback_counterexample :
    (call_mcp_tool parse0 true (StreamEnv.ok 200 (StreamRead.lines []))
        (PostOutcome.response 200 "null")).2 = [HttpAction.streamPost] ∧
    (call_mcp_tool parse0 true (StreamEnv.ok 200 (StreamRead.lines []))
        (PostOutcome.response 200 "null")).1.success = false ∧
    (call_mcp_tool parse0 true (StreamEnv.ok 200 (StreamRead.lines []))
        (PostOutcome.response 200 "null")).1.error = some "Empty SSE stream" ∧
    (fallback_post parse0 (PostOutcome.response 200 "null")).success = true :=
  ⟨rfl, rfl, rfl, rfl⟩

/-- C6 amended: `call_mcp_tool` falls back to exactly one plain
synchronous POST of the same request (returning that fallback's result)
when the streaming POST raises, when the streaming response has a non-200
status, or when reading the stream raises; but a 200 stream that yields no
data lines returns `success=false` with error "Empty SSE stream" directly,
without any fallback POST. -/
theorem stream_fallback_conditions (parse : String → Option Json)
    (se : StreamEnv) (po : PostOutcome) :
    (∀ msg, se = StreamEnv.raised msg →
      call_mcp_tool parse true se po =
        (fallback_post parse po, [HttpAction.streamPost, HttpAction.plainPost])) ∧
    (∀ status read, se = StreamEnv.ok status read → ¬ status = 200 →
      call_mcp_tool parse true se po =
        (fallback_post parse po, [HttpAction.streamPost, HttpAction.plainPost])) ∧
    (∀ msg, se = StreamEnv.ok 200 (StreamRead.readError msg) →
      call_mcp_tool parse true se po =
        (fallback_post parse po, [HttpAction.streamPost, HttpAction.plainPost])) ∧
    (∀ ls, se = StreamEnv.ok 200 (StreamRead.lines ls) →
      sseLoop parse [] ls = LoopOut.done [] →
      call_mcp_tool parse true se po =
        ({ success := false, status := some 200, data := none,
           error := some "Empty SSE stream" }, [HttpAction.streamPost])) := by
  refine ⟨?_, ?_, ?_, ?_⟩
  · intro msg hse
    subst hse
    rfl
  · intro status read hse hstatus
    subst hse
    simp [call_mcp_tool, hstatus]
  · intro msg hse
    subst hse
    rfl
  · intro ls hse hloop
    subst hse
    simp [call_mcp_tool, streamBranch, hloop]

/-- Closed instance of the amended C6: a raised streaming POST falls back
to the plain POST, and an empty 200 stream returns the empty-stream
failure with no fallback. -/
theorem stream_fallback_conditions_witness :
    call_mcp_tool parse0 true (StreamEnv.raised "conn reset")
        (PostOutcome.response 200 "null") =
      (fallback_post parse0 (PostOutcome.response 200 "null"),
       [HttpAction.streamPost, HttpAction.plainPost]) ∧
    call_mcp_tool parse0 true (StreamEnv.ok 500 (StreamRead.lines []))
        (PostOutcome.response 200 "null") =
      (fallback_post parse0 (PostOutcome.response 200 "null"),
       [HttpAction.streamPost, HttpAction.plainPost]) ∧
    call_mcp_tool parse0 true (StreamEnv.ok 200 (StreamRead.lines ["noise"]))
        (PostOutcome.response 200 "null") =
      ({ success := false, status := some 200, data := none,
         error := some "Empty SSE stream" }, [HttpAction.streamPost]) :=
  ⟨(stream_fallback_conditions parse0 (StreamEnv.raised "conn reset")
      (PostOutcome.response 200 "null")).1 "conn reset" rfl,
   (stream_fallback_conditions parse0 (StreamEnv.ok 500 (StreamRead.lines []))
      (PostOutcome.response 200 "null")).2.1 500 (StreamRead.lines []) rfl (by decide),
   (stream_fallback_conditions parse0 (StreamEnv.ok 200 (StreamRead.lines ["noise"]))
      (PostOutcome.response 200 "null")).2.2.2 ["noise"] rfl rfl⟩

/-- C9: when the streaming endpoint answers 200 with a single complete
JSON data line whose payload equals the body a plain POST would return,
the streaming path of `call_mcp_tool` returns a result identical to the
plain-POST fallback path's result for the same request (stream/fallback
equivalence). -/
theorem stream_fallback_equivalence (parse : String → Option Json)
    (raw t : String) (j : Json) (po : PostOutcome)
    (h1 : ¬ raw = "") (h2 : pyStartsWith (pyStrip raw) "data:" = true)
    (h3 : pyStrip (pyDrop 5 (pyStrip raw)) = t) (h4 : parse t = some j) :
    (call_mcp_tool parse true (StreamEnv.ok 200 (StreamRead.lines [raw])) po).1 =
      fallback_post parse (PostOutcome.response 200 t) := by
  have hloop : sseLoop parse [] [raw] = LoopOut.found j := by
    rw [sseLoop, if_neg h1, if_pos h2, h3]
    simp [h4]
  simp [call_mcp_tool, streamBranch, hloop, fallback_post, h4]

/-- Closed instance of C9: the stream line `data: null` against a plain
POST whose body is `null`, evaluated concretely. -/
theorem stream_fallback_equivalence_witness :
    (call_mcp_tool parse0 true (StreamEnv.ok 200 (StreamRead.lines ["data: null"]))
        (PostOutcome.raised "down")).1 =
      fallback_post parse0 (PostOutcome.response 200 "null") :=
  stream_fallback_equivalence parse0 "data: null" "null" Json.null
    (PostOutcome.raised "down") (by decide) (by decide) (by decide) rfl
